import Mathlib

/-!
Verification development for the brandad-generator repository.

The repository is a browser tool that turns a product description and an
uploaded image into advertisement variations via an image-generation API.
The definitions below are a shallow embedding of the two core modules:

  * src/services/openaiService.ts  (enhancePrompt, generateImages)
  * the orchestration component    (generateAdVariations, handleRateAd,
    handleRegenerateAd)

Network effects are modelled by explicit outcome oracles: each point where
the code awaits an external response takes a value describing what that
response was (network error, HTTP status plus body, parsed JSON body, and
so on), and all the branching on those values is translated from the
source.  JSON values are modelled by the inductive `Json` type; JavaScript
truthiness and template-literal string coercion are modelled explicitly.
-/

/-- A JSON value, as produced by JSON.parse in the service code. -/
inductive Json where
  | null
  | bool (b : Bool)
  | num (n : Int)
  | str (s : String)
  | arr (elems : List Json)
  | obj (fields : List (String × Json))
deriving Repr

/-- Property access `j.k`: defined only on objects, `none` otherwise
(mirrors JavaScript property lookup yielding `undefined`). -/
def getField : Json → String → Option Json
  | .obj fields, k => (fields.find? (fun p => p.1 == k)).map (fun p => p.2)
  | _, _ => none

/-- Property access with JavaScript `undefined` (falsy) as default. -/
def getFieldD (j : Json) (k : String) : Json :=
  (getField j k).getD .null

/-- JavaScript truthiness of a JSON value. -/
def Json.truthy : Json → Bool
  | .null => false
  | .bool b => b
  | .num n => !(n == 0)
  | .str s => !(s == "")
  | .arr _ => true
  | .obj _ => true

mutual

/-- JavaScript template-literal coercion of a value to a string (the shapes
exercised by the service are strings, where this is the identity). -/
def jsTemplateString : Json → String
  | .null => "null"
  | .bool true => "true"
  | .bool false => "false"
  | .num n => toString n
  | .str s => s
  | .arr elems => String.intercalate "," (jsTemplateStringList elems)
  | .obj _ => "[object Object]"

def jsTemplateStringList : List Json → List String
  | [] => []
  | j :: rest => jsTemplateString j :: jsTemplateStringList rest

end

/-- JavaScript String.prototype.trim: strip whitespace from both ends
(structural model, used instead of the library trim so that closed terms
evaluate by definitional reduction). -/
def jsTrim (s : String) : String :=
  ⟨((s.data.dropWhile Char.isWhitespace).reverse.dropWhile Char.isWhitespace).reverse⟩

/-!
## Prompt Enhancer  (openaiService.ts, enhancePrompt)

The function reads the API key from the environment and throws
"OpenAI API key is not configured" when it is absent; this check sits
BEFORE the try/catch, so that error propagates to the caller.  Inside the
try block it awaits a chat completion; the enhanced prompt is
`response.choices[0]?.message?.content?.trim() || userPrompt`, and any
error thrown by the network call is caught and the original prompt
returned.
-/

/-- Outcome of the chat-completion network call awaited by enhancePrompt:
either it resolved (with the optional message content of the first
choice), or it threw. -/
inductive ChatOutcome where
  | resolved (content : Option String)
  | threw
deriving Repr, DecidableEq

/-- Shallow embedding of `enhancePrompt`.  `apiKeyPresent` models the
truthiness of `import.meta.env.VITE_OPENAI_API_KEY`; `outcome` is the
result of the awaited chat completion.  An `Except.error` models a thrown
exception reaching the caller. -/
def enhancePrompt (apiKeyPresent : Bool) (userPrompt : String)
    (outcome : ChatOutcome) : Except String String :=
  if !apiKeyPresent then
    .error "OpenAI API key is not configured"
  else
    match outcome with
    | .resolved content =>
      match content with
      | some s => if jsTrim s == "" then .ok userPrompt else .ok (jsTrim s)
      | none => .ok userPrompt
    | .threw => .ok userPrompt

/-- C1, counterexample: with the credential missing, `enhancePrompt` does
propagate an error to its caller (the key check precedes the try/catch),
so the claim that it never propagates an error — including for a missing
credential — is false. -/
theorem c1_counterexample :
    enhancePrompt false "Blue ceramic mug" (.resolved (some "A blue mug")) =
      .error "OpenAI API key is not configured" := rfl

/-- C1, amended: when the credential is present, `enhancePrompt` never
propagates an error — it returns some string for every outcome, returns
the original string unchanged when the network call throws or when the
response carries no usable content, and returns the trimmed content
otherwise; when the credential is missing it throws
"OpenAI API key is not configured" before any network attempt. -/
theorem c1_enhance_best_effort :
    (∀ p o, ∃ s, enhancePrompt true p o = .ok s)
  ∧ (∀ p, enhancePrompt true p .threw = .ok p)
  ∧ (∀ p, enhancePrompt true p (.resolved none) = .ok p)
  ∧ (∀ p s, jsTrim s ≠ "" →
      enhancePrompt true p (.resolved (some s)) = .ok (jsTrim s))
  ∧ (∀ p o, enhancePrompt false p o =
      .error "OpenAI API key is not configured") := by
  refine ⟨fun p o => ?_, fun p => rfl, fun p => rfl, fun p s hs => ?_, fun p o => rfl⟩
  · cases o with
    | threw => exact ⟨p, rfl⟩
    | resolved content =>
      cases content with
      | none => exact ⟨p, rfl⟩
      | some s =>
        by_cases h : jsTrim s = ""
        · exact ⟨p, by simp [enhancePrompt, h]⟩
        · exact ⟨jsTrim s, by simp [enhancePrompt, h]⟩
  · simp [enhancePrompt, hs]

/-- C1 witness: the amended theorem evaluated at concrete inputs. -/
theorem c1_enhance_best_effort_witness :
    enhancePrompt true "mug" (.resolved (some " shiny mug ")) =
      .ok (jsTrim " shiny mug ") :=
  c1_enhance_best_effort.2.2.2.1 "mug" " shiny mug " (by decide)

/-!
## Image response parser  (openaiService.ts, generateImages lines 244-340)

On a successful, JSON-parseable response the code checks
`data.data && Array.isArray(data.data)`.  In that branch it takes
`data.data[0]`; when that first item is truthy it tries `url`, then
`b64_json`, and as a last resort scans the first item's OWN properties for
a string starting with "http" or "data:"; a falsy first item (empty data
array) raises "API response contains empty data array".  Only when `data`
has no `data` array at all does the generic recursive scan `findUrls` run
over the whole response object.
-/

/-- A string that looks like an image locator: it starts with "http" or
with "data:" (stated on the character lists so that closed terms reduce
definitionally). -/
def isImageString (s : String) : Bool :=
  "http".data.isPrefixOf s.data || "data:".data.isPrefixOf s.data

mutual

/-- The recursive scan `findUrls` from generateImages: objects and arrays
are walked (JavaScript arrays have typeof "object" and are entered by
Object.entries); a string value is collected when it looks like an image
locator; all other values are skipped.  A non-object argument yields no
results. -/
def findUrls : Json → List String
  | .obj fields => findUrlsFields fields
  | .arr elems => findUrlsElems elems
  | _ => []

def findUrlsFields : List (String × Json) → List String
  | [] => []
  | (_, v) :: rest => findUrlsVal v ++ findUrlsFields rest

def findUrlsElems : List Json → List String
  | [] => []
  | v :: rest => findUrlsVal v ++ findUrlsElems rest

def findUrlsVal : Json → List String
  | .str s => if isImageString s then [s] else []
  | .obj fields => findUrlsFields fields
  | .arr elems => findUrlsElems elems
  | _ => []

end

/-- The shallow property scan applied to `data.data[0]` when it has
neither a truthy `url` nor a truthy `b64_json`: only the item's own
values of string type are examined (Object.keys plus a typeof check). -/
def shallowScan : Json → List String
  | .obj fields => fields.filterMap (fun p =>
      match p.2 with
      | .str s => if isImageString s then some s else none
      | _ => none)
  | .arr elems => elems.filterMap (fun v =>
      match v with
      | .str s => if isImageString s then some s else none
      | _ => none)
  | _ => []

/-- Does the parsed body have a `data` field holding an array
(the guard `data.data && Array.isArray(data.data)`; arrays are always
truthy)? -/
def hasDataArr (j : Json) : Bool :=
  match getField j "data" with
  | some (.arr _) => true
  | _ => false

/-- The per-request image extraction from a successful parsed response,
translated from generateImages lines 244-340.  `Except.error` carries the
message of the thrown Error. -/
def extractImage (data : Json) : Except String String :=
  match getField data "data" with
  | some (.arr items) =>
    let firstItem := items.headD .null
    if firstItem.truthy then
      if (getFieldD firstItem "url").truthy then
        .ok (jsTemplateString (getFieldD firstItem "url"))
      else if (getFieldD firstItem "b64_json").truthy then
        .ok ("data:image/png;base64," ++ jsTemplateString (getFieldD firstItem "b64_json"))
      else
        match shallowScan firstItem with
        | u :: _ => .ok u
        | [] => .error "API response missing image data - no URL or base64 found"
    else
      .error "API response contains empty data array"
  | _ =>
    match findUrls data with
    | u :: _ => .ok u
    | [] => .error "API response missing image data - no URLs found in response"

/-- C3, counterexample: a response whose `data` array is present but whose
first entry carries no image reference is NOT rescued by a recursive scan
of the entire response object — the call fails even though a URL-looking
string is present elsewhere in the response (here under the top-level
field "picture"), which the recursive scan does find. -/
theorem c3_counterexample :
    extractImage
      (.obj [("data", .arr [.obj [("note", .num 1)]]),
             ("picture", .str "http://example.com/a.png")]) =
      .error "API response missing image data - no URL or base64 found"
  ∧ findUrls
      (.obj [("data", .arr [.obj [("note", .num 1)]]),
             ("picture", .str "http://example.com/a.png")]) =
      ["http://example.com/a.png"] :=
  ⟨rfl, by simp [findUrls, findUrlsFields, findUrlsElems, findUrlsVal, isImageString]⟩

/-- C3, amended: for every successful JSON-parseable response, when a
`data` array is present the parser uses only its first entry — `url`
first, then the base64 payload, then a SHALLOW scan of that entry's own
string-valued properties — and a missing or falsy first entry fails with
an "empty data array" error; the generic recursive scan of the entire
response object runs only when no `data` array is present at all; when
the applicable strategy finds nothing, the call fails with a
"missing image data" error. -/
theorem c3_parser_shape :
    (∀ j items u, getField j "data" = some (.arr items) →
        (items.headD .null).truthy = true →
        getFieldD (items.headD .null) "url" = .str u → u ≠ "" →
        extractImage j = .ok u)
  ∧ (∀ j items s, getField j "data" = some (.arr items) →
        (items.headD .null).truthy = true →
        (getFieldD (items.headD .null) "url").truthy = false →
        getFieldD (items.headD .null) "b64_json" = .str s → s ≠ "" →
        extractImage j = .ok ("data:image/png;base64," ++ s))
  ∧ (∀ j items, getField j "data" = some (.arr items) →
        (items.headD .null).truthy = false →
        extractImage j = .error "API response contains empty data array")
  ∧ (∀ j items u rest, getField j "data" = some (.arr items) →
        (items.headD .null).truthy = true →
        (getFieldD (items.headD .null) "url").truthy = false →
        (getFieldD (items.headD .null) "b64_json").truthy = false →
        shallowScan (items.headD .null) = u :: rest →
        extractImage j = .ok u)
  ∧ (∀ j items, getField j "data" = some (.arr items) →
        (items.headD .null).truthy = true →
        (getFieldD (items.headD .null) "url").truthy = false →
        (getFieldD (items.headD .null) "b64_json").truthy = false →
        shallowScan (items.headD .null) = [] →
        extractImage j =
          .error "API response missing image data - no URL or base64 found")
  ∧ (∀ j, hasDataArr j = false →
        extractImage j = (match findUrls j with
          | u :: _ => .ok u
          | [] =>
            .error "API response missing image data - no URLs found in response")) := by
  refine ⟨?_, ?_, ?_, ?_, ?_, ?_⟩
  · intro j items u hdata htr hurl hu
    simp only [List.headD_eq_head?_getD] at htr hurl
    have htruthy : (Json.str u).truthy = true := by simp [Json.truthy, hu]
    simp [extractImage, hdata, htr, hurl, htruthy, jsTemplateString]
  · intro j items s hdata htr hurl hb64 hs
    simp only [List.headD_eq_head?_getD] at htr hurl hb64
    have htruthy : (Json.str s).truthy = true := by simp [Json.truthy, hs]
    simp [extractImage, hdata, htr, hurl, hb64, htruthy, jsTemplateString]
  · intro j items hdata htr
    simp only [List.headD_eq_head?_getD] at htr
    simp [extractImage, hdata, htr]
  · intro j items u rest hdata htr hurl hb64 hscan
    simp only [List.headD_eq_head?_getD] at htr hurl hb64 hscan
    simp [extractImage, hdata, htr, hurl, hb64, hscan]
  · intro j items hdata htr hurl hb64 hscan
    simp only [List.headD_eq_head?_getD] at htr hurl hb64 hscan
    simp [extractImage, hdata, htr, hurl, hb64, hscan]
  · intro j hnoarr
    unfold hasDataArr at hnoarr
    unfold extractImage
    rcases hj : getField j "data" with _ | v
    · rfl
    · cases v <;> simp_all

/-- C3 witness: the amended parser characterization applied at concrete
responses — the primary `data[0].url` path, and the recursive-scan path
for a response without a `data` array. -/
theorem c3_parser_shape_witness :
    extractImage (.obj [("data", .arr [.obj [("url", .str "http://a.png")]])]) =
      .ok "http://a.png"
  ∧ extractImage (.obj [("result", .obj [("image", .str "data:image/png;base64,AA")])]) =
      .ok "data:image/png;base64,AA" := by
  constructor
  · exact c3_parser_shape.1 _ [.obj [("url", .str "http://a.png")]] "http://a.png"
      rfl rfl rfl (by decide)
  · have h := c3_parser_shape.2.2.2.2.2
      (.obj [("result", .obj [("image", .str "data:image/png;base64,AA")])]) rfl
    rw [h]
    simp [findUrls, findUrlsFields, findUrlsVal, isImageString]

/-!
## Image Generator  (openaiService.ts, generateImages)

The function throws "OpenAI API key is not configured" when the key is
absent, then runs a sequential loop of `n` requests.  Each iteration
converts the image, posts a multipart request, and on a non-OK response
throws a stringified structured error `{message, status, details}` whose
message comes from the error envelope when parseable; on an OK response it
parses the body (throwing "Failed to parse API response" when not JSON)
and extracts an image locator (`extractImage` above).  After a successful
iteration, `if (i < n - 1)` awaits a one-second delay.  The outer catch
re-formats structured errors as "message (Status: s)" and re-throws plain
messages verbatim; an empty result list becomes
"Failed to generate any images".
-/

/-- Outcome of one image-edit request awaited inside the loop. -/
inductive RequestOutcome where
  /-- fetch (or the image-blob conversion) threw; the message is the
  thrown error's message. -/
  | networkError (msg : String)
  /-- non-OK HTTP response; `body` is its JSON body when parseable. -/
  | httpNotOk (status : Nat) (body : Option Json)
  /-- OK HTTP response; `body` is its JSON body when parseable. -/
  | okResponse (body : Option Json)

/-- An error thrown out of one loop iteration: either the stringified
structured `{message, status, details}` object thrown for a non-OK
response, or a plain Error message. -/
inductive GenError where
  | structured (message : String) (status : Nat)
  | plain (message : String)
deriving Repr, DecidableEq

/-- The message extracted from a non-OK response:
`errorData.error?.message || "API request failed with status <s>"`. -/
def httpErrorMessage (status : Nat) (body : Option Json) : String :=
  let fallback := "API request failed with status " ++ toString status
  match body with
  | none => fallback
  | some b =>
    let m := getFieldD (getFieldD b "error") "message"
    if m.truthy then jsTemplateString m else fallback

/-- What one loop iteration does with its request outcome: the extracted
image locator, or the error it throws. -/
def processResponse : RequestOutcome → Except GenError String
  | .networkError m => .error (.plain m)
  | .httpNotOk status body => .error (.structured (httpErrorMessage status body) status)
  | .okResponse none => .error (.plain "Failed to parse API response")
  | .okResponse (some j) =>
    match extractImage j with
    | .ok u => .ok u
    | .error m => .error (.plain m)

/-- The outer catch of generateImages: a structured error message (which
parses as JSON) is re-formatted with its status; a plain message is used
directly. -/
def formatGenError : GenError → String
  | .structured m s => m ++ " (Status: " ++ toString s ++ ")"
  | .plain m => m

/-- Observable events of the request loop, used to state the
inter-request delay property. -/
inductive GenEvent where
  | request (i : Nat)
  | delay
deriving Repr, BEq, DecidableEq

/-- The response-outcome oracle indexed by loop iteration (a request past
the supplied outcomes is treated as a network error; theorems always
supply enough outcomes). -/
def oracleAt (outcomes : List RequestOutcome) (i : Nat) : RequestOutcome :=
  outcomes.getD i (.networkError "network error")

/-- The sequential request loop of generateImages (lines 140-352).
`i` is the loop index, `fuel = n - i` the remaining iterations, and
`outcomes` the oracle giving each awaited response.  Returns the
accumulated image locators (or the first thrown error) together with the
trace of requests and inter-request delays; the delay is awaited only
when `i < n - 1`. -/
def genLoop (outcomes : List RequestOutcome) (n : Nat) :
    Nat → Nat → List String → Except GenError (List String) × List GenEvent
  | _, 0, acc => (.ok acc.reverse, [])
  | i, fuel + 1, acc =>
    match processResponse (oracleAt outcomes i) with
    | .error e => (.error e, [.request i])
    | .ok u =>
      let rest := genLoop outcomes n (i + 1) fuel (u :: acc)
      if i < n - 1 then (rest.1, .request i :: .delay :: rest.2)
      else (rest.1, .request i :: rest.2)

/-- One-step unfolding of the loop. -/
theorem genLoop_succ (outcomes : List RequestOutcome) (n i fuel : Nat)
    (acc : List String) :
    genLoop outcomes n i (fuel + 1) acc =
      match processResponse (oracleAt outcomes i) with
      | .error e => (.error e, [.request i])
      | .ok u =>
        let rest := genLoop outcomes n (i + 1) fuel (u :: acc)
        if i < n - 1 then (rest.1, .request i :: .delay :: rest.2)
        else (rest.1, .request i :: rest.2) := rfl

/-- Shallow embedding of `generateImages` for a call with count `n`:
the missing-key error precedes the loop; the outer catch re-formats a
thrown error; an empty successful result list becomes
"Failed to generate any images". -/
def generateImagesModel (apiKeyPresent : Bool) (outcomes : List RequestOutcome)
    (n : Nat) : Except String (List String) × List GenEvent :=
  if !apiKeyPresent then
    (.error "OpenAI API key is not configured", [])
  else
    match genLoop outcomes n 0 n [] with
    | (.ok urls, evs) =>
      if urls.isEmpty then (.error "Failed to generate any images", evs)
      else (.ok urls, evs)
    | (.error e, evs) => (.error (formatGenError e), evs)

/-- The canonical trace of a fully successful run of `fuel` remaining
iterations starting at index `i`: requests separated by single delays,
with no delay after the last request. -/
def expectedTrace (i : Nat) : Nat → List GenEvent
  | 0 => []
  | 1 => [.request i]
  | fuel + 2 => .request i :: .delay :: expectedTrace (i + 1) (fuel + 1)

/-- On an all-successful run the loop trace is the canonical trace. -/
theorem genLoop_trace_eq_expected (outcomes : List RequestOutcome) (n : Nat) :
    ∀ fuel i acc, i + fuel = n →
    (∀ j, j < n → (processResponse (oracleAt outcomes j)).isOk = true) →
    (genLoop outcomes n i fuel acc).2 = expectedTrace i fuel := by
  intro fuel
  induction fuel with
  | zero => intro i acc _ _; simp [genLoop, expectedTrace]
  | succ fuel ih =>
    intro i acc hin hok
    have hi : i < n := by omega
    have hiok := hok i hi
    rcases hproc : processResponse (oracleAt outcomes i) with e | u
    · rw [hproc] at hiok; simp [Except.isOk, Except.toBool] at hiok
    · rcases fuel with _ | fuel
      · have hnlt : ¬ (i < n - 1) := by omega
        rw [genLoop_succ, hproc]
        simp [hnlt, expectedTrace, genLoop]
      · have hlt : i < n - 1 := by omega
        have hrec := ih (i + 1) (u :: acc) (by omega) hok
        rw [genLoop_succ, hproc]
        simp only [hlt, if_true]
        rw [expectedTrace]
        simp [hrec]

/-- request-vs-delay discrimination for counting. -/
theorem beq_request_delay (i : Nat) :
    (GenEvent.request i == GenEvent.delay) = false := rfl

/-- Delay count of the canonical trace. -/
theorem expectedTrace_count_delay :
    ∀ fuel i, (expectedTrace i fuel).count .delay = fuel - 1 := by
  intro fuel
  induction fuel with
  | zero => intro i; simp [expectedTrace]
  | succ fuel ih =>
    intro i
    rcases fuel with _ | fuel
    · simp [expectedTrace, List.count_cons, beq_request_delay]
    · have hdd : (GenEvent.delay == GenEvent.delay) = true := rfl
      simp only [expectedTrace, List.count_cons, ih (i + 1), beq_request_delay, hdd]
      simp

/-- The canonical trace is never empty. -/
theorem expectedTrace_ne_nil (i fuel : Nat) : expectedTrace i (fuel + 1) ≠ [] := by
  rcases fuel with _ | fuel <;> simp [expectedTrace]

/-- getLast? skips a head element when the tail is nonempty. -/
theorem getLast?_cons_of_ne_nil {α : Type} (a : α) (l : List α) (h : l ≠ []) :
    (a :: l).getLast? = l.getLast? := by
  cases l with
  | nil => exact absurd rfl h
  | cons b t => rw [List.getLast?_cons_cons]

/-- The canonical trace ends with the last request. -/
theorem expectedTrace_getLast :
    ∀ fuel i, (expectedTrace i (fuel + 1)).getLast? = some (.request (i + fuel)) := by
  intro fuel
  induction fuel with
  | zero => intro i; simp [expectedTrace]
  | succ fuel ih =>
    intro i
    have harith : i + 1 + fuel = i + (fuel + 1) := by omega
    simp only [expectedTrace]
    rw [List.getLast?_cons_cons,
        getLast?_cons_of_ne_nil _ _ (expectedTrace_ne_nil (i + 1) fuel),
        ih (i + 1), harith]

/-- The event trace of generateImagesModel is the loop trace, whatever
the result. -/
theorem generateImagesModel_trace (outcomes : List RequestOutcome) (n : Nat) :
    (generateImagesModel true outcomes n).2 = (genLoop outcomes n 0 n []).2 := by
  rcases hg : genLoop outcomes n 0 n [] with ⟨res, evs⟩
  unfold generateImagesModel
  rw [hg]
  rcases res with e | urls
  · simp
  · by_cases hu : urls.isEmpty <;> simp [hu]

/-- C8: for every call to the image generator with count n ≥ 1 in which
every request succeeds, the fixed delay is awaited exactly between
successive requests — the trace contains exactly n - 1 delays — and no
delay follows the final request (the trace ends with request n - 1). -/
theorem c8_inter_request_delay (outcomes : List RequestOutcome) (n : Nat)
    (h1 : 1 ≤ n)
    (h2 : ∀ j, j < n → (processResponse (oracleAt outcomes j)).isOk = true) :
    ((generateImagesModel true outcomes n).2.count .delay = n - 1)
  ∧ ((generateImagesModel true outcomes n).2.getLast? =
      some (.request (n - 1))) := by
  obtain ⟨m, rfl⟩ : ∃ m, n = m + 1 := ⟨n - 1, by omega⟩
  have htrace := genLoop_trace_eq_expected outcomes (m + 1) (m + 1) 0 [] (by omega) h2
  rw [generateImagesModel_trace, htrace]
  constructor
  · rw [expectedTrace_count_delay]
  · rw [expectedTrace_getLast]
    simp

/-- C8 witness: a three-request batch with successful url responses has
exactly two delays and ends with the third request. -/
theorem c8_inter_request_delay_witness :
    ((generateImagesModel true
        [.okResponse (some (.obj [("data", .arr [.obj [("url", .str "http://img1")]])])),
         .okResponse (some (.obj [("data", .arr [.obj [("url", .str "http://img2")]])])),
         .okResponse (some (.obj [("data", .arr [.obj [("url", .str "http://img3")]])]))]
        3).2.count .delay = 2)
  ∧ ((generateImagesModel true
        [.okResponse (some (.obj [("data", .arr [.obj [("url", .str "http://img1")]])])),
         .okResponse (some (.obj [("data", .arr [.obj [("url", .str "http://img2")]])])),
         .okResponse (some (.obj [("data", .arr [.obj [("url", .str "http://img3")]])]))]
        3).2.getLast? = some (.request 2)) :=
  c8_inter_request_delay _ 3 (by omega)
    (by
      intro j hj
      interval_cases j <;> rfl)

/-!
## Generation Orchestrator  (the Home component, generateAdVariations)

The component state modelled here: the generated-ads list, the
generation-error message, the loading flag and the progress value and
message.  Purely presentational state (the current tab, the cosmetic
progress-animation interval) is abstracted: the animation only ever
writes values up to 95, so its last write is an oracle `animVal` (with
`animMsg` the matching message) used on the path where the handler never
forces the bar to 100.
-/

/-- One ad-type entry of the prompt configuration. -/
structure AdTypeSpec where
  type : String
  prompt : String
deriving Repr, DecidableEq

/-- The resolved prompt configuration. -/
structure PromptConfig where
  basePrompt : String
  adTypes : List AdTypeSpec
deriving Repr, DecidableEq

/-- The built-in base prompt (ApiKeyInput.tsx lines 181-184), with the
enhanced description concatenated in. -/
def defaultBasePrompt (enhancedDescription : String) : String :=
  "Create a professional ecommerce ad for this product. The product description is: \"" ++
    enhancedDescription ++
    "\". CRITICAL INSTRUCTION: The product must be the central focus of the ad and must maintain its exact appearance, colors, and design. Do not change any text on the product image uploaded."

/-- The built-in ad types (ApiKeyInput.tsx lines 185-201). -/
def defaultAdTypes : List AdTypeSpec :=
  [ { type := "Creative Concept Ad",
      prompt := "\n\n1. Creative Concept Ad:\n- Generate a bold, imaginative visual concept using the product image.\n- The background and design should align with the product\x27s theme and aesthetic.\n- Add a short, catchy headline or tagline that evokes curiosity or emotion.\n- Use a unique font style that fits the vibe of the concept.\n\nGeneral Rules:\n\n- Ensure the product is centered or attractively placed in the visual.\n- The image should be 1080x1080px.\n- Keep text concise and legible.\n- Use a font style that is unique to this ad." },
    { type := "Benefit Highlight Ad",
      prompt := "\n\n1. Benefit Highlight Ad:\n- Focus on showcasing 2–3 key benefits or features of the product.\n- Integrate supporting graphics or icons (if relevant) in the design.\n- Make the product the visual hero.\n- Use a clean and legible font style different from other ads.\n\nGeneral Rules:\n\n- Ensure the product is centered or attractively placed in the visual.\n- The image should be 1080x1080px.\n- Keep text concise and legible.\n- Use a font style that is unique to this ad." },
    { type := "Ecommerce-Style Ad",
      prompt := "\n\n1. Ecommerce-Style Ad:\n- Make it suitable for a Shopify or Amazon-style ecommerce setting.\n- Use color palettes that complement the product (auto-match to image).\n- Add CTA like \"Buy Now\" or \"Limited Offer\".\n- Do not add pricing, unless explicitly mentioned in the USER_DESCRIPTION.\n- Use a modern, commerce-friendly font style.\n\nGeneral Rules:\n\n- Ensure the product is centered or attractively placed in the visual.\n- The image should be 1080x1080px.\n- Keep text concise and legible.\n- Use a font style that is unique to this ad." } ]

/-- The built-in configuration as a pair. -/
def defaultPromptConfig (enhancedDescription : String) : PromptConfig :=
  { basePrompt := defaultBasePrompt enhancedDescription,
    adTypes := defaultAdTypes }

/-- JavaScript String.prototype.replace with a string pattern: only the
FIRST occurrence is replaced. -/
def replaceFirst (s pattern repl : String) : String :=
  match s.splitOn pattern with
  | [] => s
  | [x] => x
  | x :: rest => x ++ repl ++ String.intercalate pattern rest

/-- The shape of the remote configuration JSON, as consumed by the merge
code: an optional `basePrompt` string and an optional `adTypes` array
(`externalConfig.basePrompt` truthiness is the string being non-empty;
`Array.isArray(externalConfig.adTypes)` holds for any array, empty
included).  Non-string or non-array-shaped fields would throw inside the
config try/catch and keep all defaults, which is the same outcome as
`okBadJson` below. -/
structure ExternalConfig where
  basePrompt : Option String
  adTypes : Option (List AdTypeSpec)
deriving Repr, DecidableEq

/-- Outcome of the remote prompt-config fetch awaited by the orchestrator
(ApiKeyInput.tsx lines 203-231). -/
inductive FetchOutcome where
  /-- fetch itself threw (network failure) — caught, defaults kept. -/
  | fetchThrew
  /-- non-OK response — defaults kept. -/
  | notOk
  /-- OK response whose body is not parseable JSON — response.json()
  throws, caught, defaults kept. -/
  | okBadJson
  /-- OK response with parseable JSON. -/
  | okJson (cfg : ExternalConfig)
deriving Repr, DecidableEq

/-- The configuration resolution of generateAdVariations: defaults,
overlaid per-field by the remote document when retrievable and
parseable.  `basePrompt` is overridden when present and truthy, with the
first `{DESCRIPTION}` placeholder substituted by the enhanced
description; `adTypes` is overridden whenever present and an array. -/
def resolvePromptConfig (enhanced : String) (f : FetchOutcome) : PromptConfig :=
  match f with
  | .okJson cfg =>
    { basePrompt :=
        match cfg.basePrompt with
        | some s =>
          if s == "" then defaultBasePrompt enhanced
          else replaceFirst s "{DESCRIPTION}" enhanced
        | none => defaultBasePrompt enhanced,
      adTypes :=
        match cfg.adTypes with
        | some l => l
        | none => defaultAdTypes }
  | _ => defaultPromptConfig enhanced

/-- C5, counterexample: a parseable remote document whose `adTypes` is
the EMPTY list still overrides the built-in ad types (the code checks
only `Array.isArray`), contradicting the claim that the full adTypes
sequence is overridden only when non-empty. -/
theorem c5_counterexample :
    (resolvePromptConfig "mug" (.okJson { basePrompt := none, adTypes := some [] })).adTypes = []
  ∧ (defaultPromptConfig "mug").adTypes ≠ [] := by
  exact ⟨rfl, by decide⟩

/-- C5, amended: if the remote fetch throws, returns non-OK, or its body
is not parseable JSON, the resolved configuration equals the built-in
defaults exactly; if parseable, basePrompt is overridden (with the first
{DESCRIPTION} placeholder substituted by the enhanced description) only
when present and non-empty, and the adTypes sequence is overridden
whenever it is present and an array — including the empty array. -/
theorem c5_config_merge :
    (∀ d, resolvePromptConfig d .fetchThrew = defaultPromptConfig d)
  ∧ (∀ d, resolvePromptConfig d .notOk = defaultPromptConfig d)
  ∧ (∀ d, resolvePromptConfig d .okBadJson = defaultPromptConfig d)
  ∧ (∀ d at_, (resolvePromptConfig d (.okJson { basePrompt := none, adTypes := at_ })).basePrompt =
      defaultBasePrompt d)
  ∧ (∀ d s at_, s ≠ "" →
      (resolvePromptConfig d (.okJson { basePrompt := some s, adTypes := at_ })).basePrompt =
        replaceFirst s "{DESCRIPTION}" d)
  ∧ (∀ d at_, (resolvePromptConfig d (.okJson { basePrompt := some "", adTypes := at_ })).basePrompt =
      defaultBasePrompt d)
  ∧ (∀ d bp l, (resolvePromptConfig d (.okJson { basePrompt := bp, adTypes := some l })).adTypes = l)
  ∧ (∀ d bp, (resolvePromptConfig d (.okJson { basePrompt := bp, adTypes := none })).adTypes =
      defaultAdTypes) := by
  refine ⟨fun d => rfl, fun d => rfl, fun d => rfl, fun d at_ => rfl,
          fun d s at_ hs => ?_, fun d at_ => rfl, fun d bp l => ?_, fun d bp => ?_⟩
  · simp [resolvePromptConfig, hs]
  · cases bp with
    | none => rfl
    | some s => by_cases hs : s = "" <;> simp [resolvePromptConfig, hs]
  · cases bp with
    | none => rfl
    | some s => by_cases hs : s = "" <;> simp [resolvePromptConfig, hs]

/-- C5 witness: the merge rules applied at concrete configurations. -/
theorem c5_config_merge_witness :
    resolvePromptConfig "mug" .notOk = defaultPromptConfig "mug"
  ∧ (resolvePromptConfig "mug"
      (.okJson { basePrompt := some "Ad for {DESCRIPTION}.",
                 adTypes := some [{ type := "X", prompt := "Y" }] })).basePrompt =
      replaceFirst "Ad for {DESCRIPTION}." "{DESCRIPTION}" "mug"
  ∧ (resolvePromptConfig "mug"
      (.okJson { basePrompt := some "Ad for {DESCRIPTION}.",
                 adTypes := some [{ type := "X", prompt := "Y" }] })).adTypes =
      [{ type := "X", prompt := "Y" }] :=
  ⟨c5_config_merge.2.1 "mug",
   c5_config_merge.2.2.2.2.1 "mug" "Ad for {DESCRIPTION}." _ (by decide),
   c5_config_merge.2.2.2.2.2.2.1 "mug" _ _⟩

/-- A generated ad (the GeneratedAd type of the Home component). The TS
optional fields `rating`, `adType` are Options; the optional boolean
`isRegenerating` is modelled as a Bool (undefined is falsy). -/
structure GeneratedAd where
  id : String
  imageUrl : String
  rating : Option Int
  adType : Option String
  isRegenerating : Bool
deriving Repr, DecidableEq

/-- Whitespace-run collapsing for `replace(/\s+/g, "-")`: each maximal
run of whitespace becomes a single dash. `inWs` records whether the
previous character was whitespace. -/
def collapseWsAux : Bool → List Char → List Char
  | _, [] => []
  | inWs, c :: rest =>
    if c.isWhitespace then
      (if inWs then [] else ['-']) ++ collapseWsAux true rest
    else c :: collapseWsAux false rest

/-- `type.toLowerCase().replace(/\s+/g, "-")` from the generated-ad id. -/
def slugify (s : String) : String :=
  ⟨collapseWsAux false (s.data.map Char.toLower)⟩

/-- The timestamp-and-label part of a generated-ad id. -/
def idSuffix (ts : Nat) (label : String) : String :=
  toString ts ++ "-" ++ slugify label

/-- The generated-ad id: backtick template
gen-(Date.now())-(slugified ad type). -/
def mkAdId (ts : Nat) (label : String) : String :=
  "gen-" ++ idSuffix ts label

/-- The three fixed placeholder ads substituted when the batch fails
(ApiKeyInput.tsx lines 275-294). -/
def fallbackAds : List GeneratedAd :=
  [ { id := "1",
      imageUrl := "https://images.unsplash.com/photo-1542744173-8e7e53415bb0?w=800&q=80",
      rating := none, adType := some "Creative Concept Ad", isRegenerating := false },
    { id := "2",
      imageUrl := "https://images.unsplash.com/photo-1557804506-669a67965ba0?w=800&q=80",
      rating := none, adType := some "Benefit Highlight Ad", isRegenerating := false },
    { id := "3",
      imageUrl := "https://images.unsplash.com/photo-1661956602926-db6b25f75947?w=800&q=80",
      rating := none, adType := some "Ecommerce-Style Ad", isRegenerating := false } ]

/-- The oracles of one top-level generation run. -/
structure GenEnv where
  /-- truthiness of the configured API key. -/
  apiKeyPresent : Bool
  /-- outcome of the enhancement chat call. -/
  enhanceOutcome : ChatOutcome
  /-- result of fileToDataUrl on the uploaded image (an error models the
  FileReader rejecting; the carried string is the message the outer catch
  would report). -/
  fileOutcome : Except String String
  /-- outcome of the remote prompt-config fetch. -/
  configFetch : FetchOutcome
  /-- outcome of the image-edit request issued for ad type k (each
  generateImages call has n = 1, so one outcome per call). -/
  imageOutcomes : List RequestOutcome
  /-- Date.now() value observed when pushing the ad for ad type k. -/
  timestamps : List Nat
  /-- last progress value written by the cosmetic animation before the
  handler returned (the animation caps at 95). -/
  animVal : Nat
  /-- last progress message written before the handler returned. -/
  animMsg : String

/-- The observable state when a top-level generation run has fully
settled (including the 500 ms timeout when one was scheduled). -/
structure GenResult where
  generatedAds : List GeneratedAd
  generationError : Option String
  isGenerating : Bool
  progressValue : Nat
  progressMessage : String
  /-- true when the loading flag was cleared by the scheduled 500 ms
  timeout; false when the top-level catch cleared it immediately. -/
  clearedAfterDelay : Bool
deriving Repr, DecidableEq

/-- The per-ad-type generation loop of generateAdVariations
(lines 236-261): each ad type issues one generateImages call; a throw
aborts the whole batch; a successful call with a non-empty url list
pushes an ad whose id embeds the observed timestamp and the slugified
type label. -/
def runBatch (env : GenEnv) : List AdTypeSpec → Nat → Except String (List GeneratedAd)
  | [], _ => .ok []
  | a :: rest, k =>
    match (generateImagesModel env.apiKeyPresent [oracleAt env.imageOutcomes k] 1).1 with
    | .error e => .error e
    | .ok [] => runBatch env rest (k + 1)
    | .ok (u :: _) =>
      match runBatch env rest (k + 1) with
      | .error e => .error e
      | .ok ads =>
        .ok ({ id := mkAdId (env.timestamps.getD k 0) a.type,
               imageUrl := u, rating := none, adType := some a.type,
               isRegenerating := false } :: ads)

/-- Shallow embedding of generateAdVariations.  The outer try covers
enhancement and image conversion: an exception there reaches the
top-level catch, which records the error and clears the loading flag
immediately, leaving the progress bar wherever the animation last wrote
it.  The inner try covers the batch: on success the assembled ads are
stored, on failure the error message and the three placeholder ads; both
then force progress to 100 / "Complete!" and schedule the 500 ms timeout
that clears the loading flag. -/
def generateAdVariations (description : String) (prevAds : List GeneratedAd)
    (env : GenEnv) : GenResult :=
  match enhancePrompt env.apiKeyPresent description env.enhanceOutcome with
  | .error msg =>
    { generatedAds := prevAds, generationError := some msg,
      isGenerating := false, progressValue := env.animVal,
      progressMessage := env.animMsg, clearedAfterDelay := false }
  | .ok enhanced =>
    match env.fileOutcome with
    | .error msg =>
      { generatedAds := prevAds, generationError := some msg,
        isGenerating := false, progressValue := env.animVal,
        progressMessage := env.animMsg, clearedAfterDelay := false }
    | .ok _imageDataUrl =>
      match runBatch env (resolvePromptConfig enhanced env.configFetch).adTypes 0 with
      | .ok ads =>
        { generatedAds := ads, generationError := none,
          isGenerating := false, progressValue := 100,
          progressMessage := "Complete!", clearedAfterDelay := true }
      | .error msg =>
        { generatedAds := fallbackAds, generationError := some msg,
          isGenerating := false, progressValue := 100,
          progressMessage := "Complete!", clearedAfterDelay := true }

/-- A concrete environment whose first image-edit request returns
HTTP 400 with body carrying error.message "invalid image". -/
def c2Env : GenEnv :=
  { apiKeyPresent := true, enhanceOutcome := .threw,
    fileOutcome := .ok "data:image/png;base64,AA",
    configFetch := .notOk,
    imageOutcomes :=
      [.httpNotOk 400 (some (.obj [("error", .obj [("message", .str "invalid image")])]))],
    timestamps := [7, 8, 9], animVal := 50, animMsg := "Doing science" }

/-- C2, counterexample: for the HTTP 400 "invalid image" failure the
orchestrator records "invalid image (Status: 400)" — the generateImages
outer catch appends the status — not exactly the string "invalid image"
the claim demands. -/
theorem c2_counterexample :
    (generateAdVariations "Blue ceramic mug" [] c2Env).generationError =
      some "invalid image (Status: 400)"
  ∧ (generateAdVariations "Blue ceramic mug" [] c2Env).generationError ≠
      some "invalid image" := by
  have h : (generateAdVariations "Blue ceramic mug" [] c2Env).generationError =
      some "invalid image (Status: 400)" := rfl
  exact ⟨h, by rw [h]; decide⟩

/-- C2, amended: when the (non-empty) batch's first image-edit request
returns HTTP 400 with body error.message "invalid image", the
orchestrator sets generationError to "invalid image (Status: 400)" — the
envelope message with the status appended by the generateImages error
formatting — and replaces the batch with the three fixed placeholder ads
carrying their original stock image references. -/
theorem c2_http400_fallback (description : String) (prevAds : List GeneratedAd)
    (env : GenEnv) (enhanced : String)
    (hkey : env.apiKeyPresent = true)
    (henh : enhancePrompt env.apiKeyPresent description env.enhanceOutcome = .ok enhanced)
    (hfile : ∃ d, env.fileOutcome = .ok d)
    (hfirst : oracleAt env.imageOutcomes 0 =
      .httpNotOk 400 (some (.obj [("error", .obj [("message", .str "invalid image")])])))
    (hne : (resolvePromptConfig enhanced env.configFetch).adTypes ≠ []) :
    (generateAdVariations description prevAds env).generationError =
      some "invalid image (Status: 400)"
  ∧ (generateAdVariations description prevAds env).generatedAds = fallbackAds := by
  obtain ⟨durl, hfo⟩ := hfile
  rcases hA : (resolvePromptConfig enhanced env.configFetch).adTypes with _ | ⟨a, rest⟩
  · exact absurd hA hne
  · have hcall : (generateImagesModel env.apiKeyPresent
        [oracleAt env.imageOutcomes 0] 1).1 = .error "invalid image (Status: 400)" := by
      rw [hkey, hfirst]; rfl
    have hrb : runBatch env (a :: rest) 0 = .error "invalid image (Status: 400)" := by
      simp only [runBatch, hcall]
    simp only [generateAdVariations, henh, hfo, hA, hrb]
    trivial

/-- C2 witness: the amended theorem applied to the concrete environment. -/
theorem c2_http400_fallback_witness :
    (generateAdVariations "Blue ceramic mug" [] c2Env).generationError =
      some "invalid image (Status: 400)"
  ∧ (generateAdVariations "Blue ceramic mug" [] c2Env).generatedAds = fallbackAds :=
  c2_http400_fallback "Blue ceramic mug" [] c2Env "Blue ceramic mug" rfl rfl
    ⟨"data:image/png;base64,AA", rfl⟩ rfl (by decide)

/-- A concrete environment whose missing credential makes enhancePrompt
throw out of the outer try (the batch phase is never reached). -/
def c4Env : GenEnv :=
  { apiKeyPresent := false, enhanceOutcome := .threw, fileOutcome := .ok "x",
    configFetch := .fetchThrew, imageOutcomes := [], timestamps := [],
    animVal := 40, animMsg := "Doing science" }

/-- C4, counterexample: on a run where an exception escapes to the
top-level catch (missing credential), progress is NOT forced to 100 and
no completion message is set — the catch clears the loading flag
immediately, with no delay — so the claim's "regardless of outcome"
phrasing fails for such runs. -/
theorem c4_counterexample :
    (generateAdVariations "Blue ceramic mug" [] c4Env).progressValue = 40
  ∧ (generateAdVariations "Blue ceramic mug" [] c4Env).progressValue ≠ 100
  ∧ (generateAdVariations "Blue ceramic mug" [] c4Env).progressMessage ≠ "Complete!"
  ∧ (generateAdVariations "Blue ceramic mug" [] c4Env).clearedAfterDelay = false :=
  ⟨rfl, by decide, by decide, rfl⟩

/-- C4, amended: the loading flag never remains set after any run; and
whenever the batch phase is reached (enhancement and image conversion
did not throw), progress is forced to 100 with the "Complete!" message
and the loading flag is cleared by the short fixed delay, for batch
success and batch failure alike — but a run that throws before the batch
phase clears the loading flag immediately, without forcing progress. -/
theorem c4_loading_never_stuck (description : String) (prevAds : List GeneratedAd)
    (env : GenEnv) :
    (generateAdVariations description prevAds env).isGenerating = false
  ∧ ((enhancePrompt env.apiKeyPresent description env.enhanceOutcome).isOk = true →
      env.fileOutcome.isOk = true →
      (generateAdVariations description prevAds env).progressValue = 100
      ∧ (generateAdVariations description prevAds env).progressMessage = "Complete!"
      ∧ (generateAdVariations description prevAds env).clearedAfterDelay = true) := by
  rcases he : enhancePrompt env.apiKeyPresent description env.enhanceOutcome with msg | enhanced
  · simp [generateAdVariations, he, Except.isOk, Except.toBool]
  · rcases hf : env.fileOutcome with msg | durl
    · simp [generateAdVariations, he, hf, Except.isOk, Except.toBool]
    · rcases hb : runBatch env (resolvePromptConfig enhanced env.configFetch).adTypes 0
        with e | ads
      · simp [generateAdVariations, he, hf, hb]
      · simp [generateAdVariations, he, hf, hb]

/-- C4 witness: a run whose batch fails still ends with progress 100,
"Complete!", the delayed clear, and a cleared loading flag. -/
theorem c4_loading_never_stuck_witness :
    (generateAdVariations "Blue ceramic mug" [] c2Env).isGenerating = false
  ∧ (generateAdVariations "Blue ceramic mug" [] c2Env).progressValue = 100
  ∧ (generateAdVariations "Blue ceramic mug" [] c2Env).progressMessage = "Complete!"
  ∧ (generateAdVariations "Blue ceramic mug" [] c2Env).clearedAfterDelay = true := by
  have h := c4_loading_never_stuck "Blue ceramic mug" [] c2Env
  exact ⟨h.1, h.2 rfl rfl⟩

/-!
## Rating and regeneration  (handleRateAd, handleRegenerateAd)

Every state update in these handlers is a map over the current batch that
rewrites exactly the ads whose id matches the target id (`ad.id === id`),
captured by `updateWhere`.  handleRateAd performs no validation of the
rating value.  handleRegenerateAd returns immediately when the id is not
found; otherwise it marks the target regenerating, and then either
installs the freshly generated image (clearing rating and the flag), or
— when the session inputs are unavailable, the API branch threw, or the
API returned no urls — installs the randomized mock placeholder
(clearing rating and the flag).  All throwing operations of the handler
sit inside the inner try, so the outer catch (which only resets the
flag) is unreachable and is not modelled. -/

/-- `ads.map(ad => ad.id === id ? f(ad) : ad)`. -/
def updateWhere (id : String) (f : GeneratedAd → GeneratedAd)
    (ads : List GeneratedAd) : List GeneratedAd :=
  ads.map (fun ad => if ad.id == id then f ad else ad)

/-- handleRateAd: store the given rating on the matching ad; no range
validation is performed. -/
def handleRateAd (ads : List GeneratedAd) (id : String) (rating : Int) :
    List GeneratedAd :=
  updateWhere id (fun ad => { ad with rating := some rating }) ads

/-- Outcome of the regeneration API branch. -/
inductive RegenApiOutcome where
  /-- generateImages resolved with these urls. -/
  | resolved (urls : List String)
  /-- something in the API branch threw (caught by the inner catch). -/
  | threw
deriving Repr, DecidableEq

/-- The oracles of one regeneration run. -/
structure RegenEnv where
  /-- truthiness of `productImage && productDescription`. -/
  hasSession : Bool
  /-- outcome of the API branch when taken. -/
  apiOutcome : RegenApiOutcome
  /-- rendering of Math.random() in the mock placeholder URL. -/
  mockRandom : String
deriving Repr, DecidableEq

/-- The randomized mock placeholder URL of the regeneration fallback. -/
def mockRegenUrl (env : RegenEnv) : String :=
  "https://images.unsplash.com/photo-1611162617213-7d7a39e9b1d7?w=800&q=80&random=" ++
    env.mockRandom

/-- The fallback update: replace the image with the mock placeholder,
clear the rating, clear the regenerating flag. -/
def regenApplyMock (env : RegenEnv) (id : String) (ads : List GeneratedAd) :
    List GeneratedAd :=
  updateWhere id (fun ad =>
    { ad with
      imageUrl := mockRegenUrl env, rating := none,
      isRegenerating := false }) ads

/-- Shallow embedding of handleRegenerateAd (state transitions only; the
request construction of the API branch is abstracted by the outcome
oracle). -/
def handleRegenerateAd (ads : List GeneratedAd) (id : String)
    (env : RegenEnv) : List GeneratedAd :=
  match ads.find? (fun ad => ad.id == id) with
  | none => ads
  | some _ =>
    let marked := updateWhere id (fun ad => { ad with isRegenerating := true }) ads
    if env.hasSession then
      match env.apiOutcome with
      | .resolved (u :: _) =>
        updateWhere id (fun ad =>
          { ad with
            imageUrl := u, rating := none, isRegenerating := false }) marked
      | .resolved [] => regenApplyMock env id marked
      | .threw => regenApplyMock env id marked
    else regenApplyMock env id marked

/-- Composing two matching-id updates is one update by the composite,
provided the first preserves the id. -/
theorem updateWhere_updateWhere (id : String) (f g : GeneratedAd → GeneratedAd)
    (ads : List GeneratedAd) (hf : ∀ a, (f a).id = a.id) :
    updateWhere id g (updateWhere id f ads) = updateWhere id (fun a => g (f a)) ads := by
  unfold updateWhere
  rw [List.map_map]
  apply List.map_congr_left
  intro a _
  by_cases h : a.id == id
  · simp [h, Function.comp, hf a]
  · simp [Function.comp, h]

/-- Positional frame property of updateWhere: entries whose id differs
from the target are returned unchanged. -/
theorem updateWhere_getElem?_ne (id : String) (f : GeneratedAd → GeneratedAd)
    (ads : List GeneratedAd) (i : Nat) (a : GeneratedAd)
    (hi : ads[i]? = some a) (hne : a.id ≠ id) :
    (updateWhere id f ads)[i]? = some a := by
  unfold updateWhere
  rw [List.getElem?_map, hi]
  simp [Option.map]
  intro h
  exact absurd h hne

/-- Every member of an updateWhere image that carries the target id is
the image under f of a member that carried the target id, provided f
preserves the id. -/
theorem mem_updateWhere_target (id : String) (f : GeneratedAd → GeneratedAd)
    (ads : List GeneratedAd)
    (b : GeneratedAd) (hb : b ∈ updateWhere id f ads) (hid : b.id = id) :
    ∃ a, a ∈ ads ∧ a.id = id ∧ b = f a := by
  unfold updateWhere at hb
  obtain ⟨a, ha, hab⟩ := List.mem_map.mp hb
  by_cases h : a.id == id
  · rw [if_pos h] at hab
    exact ⟨a, ha, by simpa using h, hab.symm⟩
  · rw [if_neg h] at hab
    subst hab
    simp at h
    exact absurd hid h

/-- Positional frame property of the mark-then-update pair used by the
regeneration handler: entries with a different id are unchanged. -/
theorem two_step_frame (id : String) (g : GeneratedAd → GeneratedAd)
    (ads : List GeneratedAd) (i : Nat) (a : GeneratedAd)
    (hi : ads[i]? = some a) (hne : a.id ≠ id) :
    (updateWhere id g
      (updateWhere id (fun ad => { ad with isRegenerating := true }) ads))[i]? =
      some a :=
  updateWhere_getElem?_ne id g _ i a
    (updateWhere_getElem?_ne id _ ads i a hi hne) hne

/-- Every target-id member of the mark-then-update image is g applied to
a marked original member, provided g preserves the id. -/
theorem two_step_target_shape (id : String) (g : GeneratedAd → GeneratedAd)
    (ads : List GeneratedAd)
    (b : GeneratedAd)
    (hb : b ∈ updateWhere id g
      (updateWhere id (fun ad => { ad with isRegenerating := true }) ads))
    (hid : b.id = id) :
    ∃ a, a ∈ ads ∧ b = g { a with isRegenerating := true } := by
  rw [updateWhere_updateWhere id
    (fun ad => { ad with isRegenerating := true }) g ads (fun a => rfl)] at hb
  obtain ⟨a, ha, _, hshape⟩ := mem_updateWhere_target id _ ads b hb hid
  exact ⟨a, ha, hshape⟩

/-- When the target id is found, the regeneration handler is exactly a
mark-then-final-update pair, where the final update preserves the id,
clears the regenerating flag and clears the rating — whichever of the
API-success, no-url, API-failure or no-session branches ran. -/
theorem handleRegenerateAd_found (ads : List GeneratedAd) (id : String)
    (env : RegenEnv) (w : GeneratedAd)
    (hfind : ads.find? (fun ad => ad.id == id) = some w) :
    ∃ g : GeneratedAd → GeneratedAd,
      (∀ b, (g b).id = b.id) ∧ (∀ b, (g b).isRegenerating = false) ∧
      (∀ b, (g b).rating = none) ∧
      handleRegenerateAd ads id env =
        updateWhere id g
          (updateWhere id (fun ad => { ad with isRegenerating := true }) ads) := by
  unfold handleRegenerateAd
  rw [hfind]
  rcases hhs : env.hasSession with _ | _
  · exact ⟨fun ad =>
      { ad with
        imageUrl := mockRegenUrl env, rating := none, isRegenerating := false },
      fun b => rfl, fun b => rfl, fun b => rfl, rfl⟩
  · rcases hao : env.apiOutcome with urls | _
    · rcases urls with _ | ⟨u, rest⟩
      · exact ⟨fun ad =>
          { ad with
            imageUrl := mockRegenUrl env, rating := none, isRegenerating := false },
          fun b => rfl, fun b => rfl, fun b => rfl, rfl⟩
      · exact ⟨fun ad =>
          { ad with
            imageUrl := u, rating := none, isRegenerating := false },
          fun b => rfl, fun b => rfl, fun b => rfl, rfl⟩
    · exact ⟨fun ad =>
        { ad with
          imageUrl := mockRegenUrl env, rating := none, isRegenerating := false },
        fun b => rfl, fun b => rfl, fun b => rfl, rfl⟩

/-- C6: regenerating an ad never changes any other ad in the batch (in
particular not its id or adType), always leaves the target's
isRegenerating flag false afterwards — on the API-success path and on
every fallback path — and is a no-op for an identifier not present in
the batch. -/
theorem c6_regenerate_frame (ads : List GeneratedAd) (id : String)
    (env : RegenEnv) :
    (ads.find? (fun ad => ad.id == id) = none → handleRegenerateAd ads id env = ads)
  ∧ (∀ (i : Nat) (a : GeneratedAd), ads[i]? = some a → a.id ≠ id →
      (handleRegenerateAd ads id env)[i]? = some a)
  ∧ (∀ a, a ∈ handleRegenerateAd ads id env → a.id = id →
      a.isRegenerating = false) := by
  rcases hfind : ads.find? (fun ad => ad.id == id) with _ | w
  · refine ⟨fun _ => by simp [handleRegenerateAd, hfind], ?_, ?_⟩
    · intro i a hi _
      simp [handleRegenerateAd, hfind, hi]
    · intro a ha hid
      rw [handleRegenerateAd, hfind] at ha
      have hnotfound := List.find?_eq_none.mp hfind a ha
      simp [hid] at hnotfound
  · obtain ⟨g, _, hgflag, _, heq⟩ :=
      handleRegenerateAd_found ads id env w hfind
    refine ⟨fun h => (by rw [h] at hfind; cases hfind), ?_, ?_⟩
    · intro i a hi hne
      rw [heq]
      exact two_step_frame id g ads i a hi hne
    · intro a ha hid
      rw [heq] at ha
      obtain ⟨b, _, hshape⟩ := two_step_target_shape id g ads a ha hid
      rw [hshape]
      exact hgflag _

/-- A concrete two-ad batch for witnesses. -/
def adA : GeneratedAd :=
  { id := "a", imageUrl := "http://a.png", rating := some 2,
    adType := some "Creative Concept Ad", isRegenerating := false }

/-- Second concrete ad. -/
def adB : GeneratedAd :=
  { id := "b", imageUrl := "http://b.png", rating := some 5,
    adType := some "Benefit Highlight Ad", isRegenerating := false }

/-- A concrete regeneration environment whose API branch succeeds. -/
def demoRegenEnv : RegenEnv :=
  { hasSession := true, apiOutcome := .resolved ["http://new.png"],
    mockRandom := "0.5" }

/-- C6 witness: the frame theorem applied to a concrete batch — an absent
id is a no-op, the sibling ad is untouched, and the regenerated ad ends
with its flag cleared. -/
theorem c6_regenerate_frame_witness :
    handleRegenerateAd [adA, adB] "zzz" demoRegenEnv = [adA, adB]
  ∧ (handleRegenerateAd [adA, adB] "a" demoRegenEnv)[1]? = some adB
  ∧ (∀ a, a ∈ handleRegenerateAd [adA, adB] "a" demoRegenEnv → a.id = "a" →
      a.isRegenerating = false) :=
  ⟨(c6_regenerate_frame [adA, adB] "zzz" demoRegenEnv).1 rfl,
   (c6_regenerate_frame [adA, adB] "a" demoRegenEnv).2.1 1 adB rfl (by decide),
   (c6_regenerate_frame [adA, adB] "a" demoRegenEnv).2.2⟩

/-- C7: after regenerating an ad that is present in the batch, every ad
carrying the target id has its rating cleared — on the API-success path
and on the placeholder-fallback paths alike. -/
theorem c7_regenerate_clears_rating (ads : List GeneratedAd) (id : String)
    (env : RegenEnv) :
    ∀ a, a ∈ handleRegenerateAd ads id env → a.id = id → a.rating = none := by
  intro a ha hid
  rcases hfind : ads.find? (fun ad => ad.id == id) with _ | w
  · rw [handleRegenerateAd, hfind] at ha
    have hnotfound := List.find?_eq_none.mp hfind a ha
    simp [hid] at hnotfound
  · obtain ⟨g, _, _, hgrate, heq⟩ :=
      handleRegenerateAd_found ads id env w hfind
    rw [heq] at ha
    obtain ⟨b, _, hshape⟩ := two_step_target_shape id g ads a ha hid
    rw [hshape]
    exact hgrate _

/-- C7 witness: regenerating ad "a" (previously rated 2) clears its
rating on the success path, and also on the no-session fallback path. -/
theorem c7_regenerate_clears_rating_witness :
    (∀ a, a ∈ handleRegenerateAd [adA, adB] "a" demoRegenEnv → a.id = "a" →
      a.rating = none)
  ∧ (∀ a, a ∈ handleRegenerateAd [adA, adB] "a"
        { hasSession := false, apiOutcome := .threw, mockRandom := "0.1" } →
      a.id = "a" → a.rating = none) :=
  ⟨c7_regenerate_clears_rating [adA, adB] "a" demoRegenEnv,
   c7_regenerate_clears_rating [adA, adB] "a"
     { hasSession := false, apiOutcome := .threw, mockRandom := "0.1" }⟩

/-- C10: rating with an identifier not present in the batch leaves the
batch unchanged; rating a present identifier rewrites exactly the
matching ads, changing only the rating field (to any value — the
handler performs no range validation) and leaving every other ad, and
every other field, untouched. -/
theorem c10_rate_frame (ads : List GeneratedAd) (id : String) (r : Int) :
    ((∀ a, a ∈ ads → a.id ≠ id) → handleRateAd ads id r = ads)
  ∧ (∀ (i : Nat) (a : GeneratedAd), ads[i]? = some a →
      (handleRateAd ads id r)[i]? =
        some (if a.id = id then { a with rating := some r } else a)) := by
  constructor
  · intro habsent
    unfold handleRateAd updateWhere
    conv_rhs => rw [← List.map_id ads]
    apply List.map_congr_left
    intro a ha
    simp [habsent a ha]
  · intro i a hi
    unfold handleRateAd updateWhere
    rw [List.getElem?_map, hi]
    by_cases h : a.id = id <;> simp [h]

/-- C10 witness: rating an absent id is a no-op; rating "a" with the
out-of-range value 7 updates exactly that ad's rating field. -/
theorem c10_rate_frame_witness :
    handleRateAd [adA, adB] "zzz" 7 = [adA, adB]
  ∧ (handleRateAd [adA, adB] "a" 7)[0]? =
      some { adA with rating := some (7 : Int) } := by
  constructor
  · exact (c10_rate_frame [adA, adB] "zzz" 7).1 (by decide)
  · have h := (c10_rate_frame [adA, adB] "a" 7).2 0 adA rfl
    simpa [adA] using h

/-!
## Batch id uniqueness  (claim C9)

A generated-ad id is `gen-<Date.now()>-<slugified type label>`.  Nothing
in the code prevents two iterations from observing the same timestamp
(Date.now has millisecond resolution and no uniqueness guarantee) while
the remote configuration supplies duplicate type labels, in which case
two ads of one batch share an id.  Uniqueness does hold whenever the
timestamp-and-label suffixes are pairwise distinct — in particular for
the built-in ad types, whose slugified labels differ — and rating and
regeneration never change any id.
-/

/-- A rating or regeneration operation applied to the current batch. -/
inductive AdOp where
  | rate (id : String) (rating : Int)
  | regen (id : String) (env : RegenEnv)

/-- Apply one operation. -/
def applyAdOp (ads : List GeneratedAd) : AdOp → List GeneratedAd
  | .rate id r => handleRateAd ads id r
  | .regen id env => handleRegenerateAd ads id env

/-- Apply a sequence of operations. -/
def applyAdOps (ads : List GeneratedAd) (ops : List AdOp) : List GeneratedAd :=
  ops.foldl applyAdOp ads

/-- updateWhere preserves the id sequence when f preserves ids. -/
theorem updateWhere_map_id (id : String) (f : GeneratedAd → GeneratedAd)
    (ads : List GeneratedAd) (hf : ∀ a, (f a).id = a.id) :
    (updateWhere id f ads).map (fun a => a.id) = ads.map (fun a => a.id) := by
  unfold updateWhere
  rw [List.map_map]
  apply List.map_congr_left
  intro a _
  by_cases h : a.id == id <;> simp [Function.comp, h, hf]

/-- Rating preserves the id sequence. -/
theorem handleRateAd_map_id (ads : List GeneratedAd) (id : String) (r : Int) :
    (handleRateAd ads id r).map (fun a => a.id) = ads.map (fun a => a.id) :=
  updateWhere_map_id id _ ads (fun _ => rfl)

/-- Regeneration preserves the id sequence. -/
theorem handleRegenerateAd_map_id (ads : List GeneratedAd) (id : String)
    (env : RegenEnv) :
    (handleRegenerateAd ads id env).map (fun a => a.id) = ads.map (fun a => a.id) := by
  rcases hfind : ads.find? (fun ad => ad.id == id) with _ | w
  · rw [handleRegenerateAd, hfind]
  · obtain ⟨g, hgid, _, _, heq⟩ := handleRegenerateAd_found ads id env w hfind
    rw [heq, updateWhere_map_id id g _ hgid,
        updateWhere_map_id id (fun ad => { ad with isRegenerating := true })
          ads (fun a => rfl)]

/-- A whole operation sequence preserves the id sequence. -/
theorem applyAdOps_map_id (ops : List AdOp) :
    ∀ ads, (applyAdOps ads ops).map (fun a => a.id) = ads.map (fun a => a.id) := by
  induction ops with
  | nil => intro ads; rfl
  | cons op rest ih =>
    intro ads
    have hstep : (applyAdOp ads op).map (fun a => a.id) = ads.map (fun a => a.id) := by
      cases op with
      | rate id r => exact handleRateAd_map_id ads id r
      | regen id env => exact handleRegenerateAd_map_id ads id env
    calc (applyAdOps ads (op :: rest)).map (fun a => a.id)
        = (applyAdOps (applyAdOp ads op) rest).map (fun a => a.id) := rfl
      _ = (applyAdOp ads op).map (fun a => a.id) := ih _
      _ = ads.map (fun a => a.id) := hstep

/-- The timestamp-and-label id suffixes a successful batch would use,
one per ad type starting at index k. -/
def batchIdSuffixes (env : GenEnv) : List AdTypeSpec → Nat → List String
  | [], _ => []
  | a :: rest, k => idSuffix (env.timestamps.getD k 0) a.type ::
      batchIdSuffixes env rest (k + 1)

/-- Prefixing with "gen-" is injective. -/
theorem genPrefix_injective : Function.Injective (fun s => "gen-" ++ s) := by
  intro s t h
  have h2 : ("gen-" ++ s).data = ("gen-" ++ t).data := congrArg String.data h
  rw [String.data_append, String.data_append] at h2
  have h3 := List.append_cancel_left h2
  cases s
  cases t
  exact congrArg String.mk h3

/-- The id sequence of a successful batch is a sublist of the prefixed
suffix sequence (an exact match except for iterations whose call
returned an empty url list, which push nothing). -/
theorem runBatch_ids_sublist (env : GenEnv) :
    ∀ (ats : List AdTypeSpec) (k : Nat) (ads : List GeneratedAd),
    runBatch env ats k = .ok ads →
    (ads.map (fun a => a.id)).Sublist
      ((batchIdSuffixes env ats k).map (fun s => "gen-" ++ s)) := by
  intro ats
  induction ats with
  | nil =>
    intro k ads h
    rw [runBatch] at h
    cases h
    simp
  | cons a rest ih =>
    intro k ads h
    rw [runBatch] at h
    rcases hcall : (generateImagesModel env.apiKeyPresent
        [oracleAt env.imageOutcomes k] 1).1 with e | urls
    · rw [hcall] at h; cases h
    · rw [hcall] at h
      rcases urls with _ | ⟨u, us⟩
      · have hsub := ih (k + 1) ads h
        rw [batchIdSuffixes, List.map_cons]
        exact hsub.cons _
      · rcases hrb : runBatch env rest (k + 1) with e2 | ads2
        · rw [hrb] at h; cases h
        · rw [hrb] at h
          cases h
          have hsub := ih (k + 1) ads2 hrb
          rw [batchIdSuffixes, List.map_cons, List.map_cons]
          exact hsub.cons₂ _

/-- An environment whose remote configuration supplies two ad types with
the SAME label and whose two iterations observe the SAME Date.now()
value; both image calls succeed. -/
def c9Env : GenEnv :=
  { apiKeyPresent := true, enhanceOutcome := .threw,
    fileOutcome := .ok "data:image/png;base64,AA",
    configFetch := .okJson
      { basePrompt := none,
        adTypes := some [{ type := "X", prompt := "p" }, { type := "X", prompt := "q" }] },
    imageOutcomes :=
      [.okResponse (some (.obj [("data", .arr [.obj [("url", .str "http://i1.png")]])])),
       .okResponse (some (.obj [("data", .arr [.obj [("url", .str "http://i2.png")]])]))],
    timestamps := [5, 5], animVal := 0, animMsg := "m" }

/-- C9, counterexample: with duplicate remote type labels and equal
observed timestamps, the two ads of the batch get the SAME id
"gen-5-x" — the id scheme guarantees nothing when neither the label nor
the millisecond timestamp distinguishes the iterations. -/
theorem c9_counterexample :
    ((generateAdVariations "mug" [] c9Env).generatedAds.map (fun a => a.id)) =
      ["gen-5-x", "gen-5-x"]
  ∧ ¬ ((generateAdVariations "mug" [] c9Env).generatedAds.map (fun a => a.id)).Nodup := by
  have h : ((generateAdVariations "mug" [] c9Env).generatedAds.map (fun a => a.id)) =
      ["gen-5-x", "gen-5-x"] := rfl
  exact ⟨h, by rw [h]; decide⟩

/-- C9, amended: in every batch produced by a run that reaches the batch
phase, the ad ids are pairwise distinct PROVIDED the per-iteration
timestamp-plus-slugified-label suffixes are pairwise distinct (the
built-in ad types have pairwise distinct slugified labels, so this holds
for them under any timestamps); a fallback batch always has the distinct
ids 1, 2, 3; and ids stay unique under any sequence of rating and
regeneration operations, since neither ever changes an id. -/
theorem c9_ids_unique (description : String) (prevAds : List GeneratedAd)
    (env : GenEnv) (enhanced : String)
    (henh : enhancePrompt env.apiKeyPresent description env.enhanceOutcome = .ok enhanced)
    (hfile : ∃ d, env.fileOutcome = .ok d)
    (hsuffix : (batchIdSuffixes env
      (resolvePromptConfig enhanced env.configFetch).adTypes 0).Nodup) :
    ∀ ops, ((applyAdOps (generateAdVariations description prevAds env).generatedAds
      ops).map (fun a => a.id)).Nodup := by
  intro ops
  rw [applyAdOps_map_id]
  obtain ⟨durl, hfo⟩ := hfile
  rcases hb : runBatch env (resolvePromptConfig enhanced env.configFetch).adTypes 0
    with e | ads
  · simp only [generateAdVariations, henh, hfo, hb]
    decide
  · have hsub := runBatch_ids_sublist env _ 0 ads hb
    have hmapped : ((batchIdSuffixes env
        (resolvePromptConfig enhanced env.configFetch).adTypes 0).map
          (fun s => "gen-" ++ s)).Nodup :=
      hsuffix.map genPrefix_injective
    simp only [generateAdVariations, henh, hfo, hb]
    exact hmapped.sublist hsub

/-- An environment with the default ad types, distinct timestamps and
three successful image calls. -/
def c9GoodEnv : GenEnv :=
  { apiKeyPresent := true, enhanceOutcome := .threw,
    fileOutcome := .ok "data:image/png;base64,AA",
    configFetch := .notOk,
    imageOutcomes :=
      [.okResponse (some (.obj [("data", .arr [.obj [("url", .str "http://i1.png")]])])),
       .okResponse (some (.obj [("data", .arr [.obj [("url", .str "http://i2.png")]])])),
       .okResponse (some (.obj [("data", .arr [.obj [("url", .str "http://i3.png")]])]))],
    timestamps := [7, 8, 9], animVal := 0, animMsg := "m" }

/-- C9 witness: a successful default-config batch keeps pairwise
distinct ids after a rating and a regeneration. -/
theorem c9_ids_unique_witness :
    ((applyAdOps (generateAdVariations "Blue ceramic mug" [] c9GoodEnv).generatedAds
        [.rate "gen-7-creative-concept-ad" 9,
         .regen "gen-8-benefit-highlight-ad" demoRegenEnv]).map
      (fun a => a.id)).Nodup :=
  c9_ids_unique "Blue ceramic mug" [] c9GoodEnv "Blue ceramic mug" rfl
    ⟨"data:image/png;base64,AA", rfl⟩ (by decide)
    [.rate "gen-7-creative-concept-ad" 9,
     .regen "gen-8-benefit-highlight-ad" demoRegenEnv]
